import Mathlib

set_option autoImplicit false

/-!
Verification of the actor-execution core of the `due` cluster node package
(`cluster/node/actor.go`, `cluster/node/proxy.go`).

Pure Go functions become Lean functions; the channel sends, the atomic state
word and the side effects (processor cleanup, channel close, link calls) are
made explicit: channels are lists of queued items, and operations that the
spec orders in time additionally return a trace of events in execution order.

The `Context` value (its version counter and the compare-version gates) and
the `Scheduler` bookkeeping (`batchUnbindActor`, the global route table) are
declared and called by `actor.go` but their definitions live outside the
reviewed sources; they are modelled from the specification, marked as such in
their doc comments.
-/

/-- Go map lookup `m[k]` for the embedded association-list maps. -/
def mapLoad {α β : Type} [DecidableEq α] (m : List (α × β)) (k : α) : Option β :=
  match m with
  | [] => none
  | (k1, v1) :: rest => if k1 = k then some v1 else mapLoad rest k

/-- Go map update `m[k] = v` for the embedded association-list maps. -/
def mapStore {α β : Type} [DecidableEq α] (m : List (α × β)) (k : α) (v : β) :
    List (α × β) :=
  match m with
  | [] => [(k, v)]
  | (k1, v1) :: rest => if k1 = k then (k, v) :: rest else (k1, v1) :: mapStore rest k v

/-- Context kinds: `Message` carries a route id, `Event` an event id
(`ctx.Kind()` in `actor.go`). -/
inductive CtxKind
  | Message
  | Event
deriving DecidableEq, Repr

/-- Modelled from the spec: a Context is the versioned envelope for one message
or event — kind, route-or-event identifier, attribution (origin node id,
gateway id, connection id, user id), sequence number, a version (generation)
counter, a cancel signal, and flags recording whether the deferred-completion
callback has run and whether the envelope was returned to its pool
(`context.go` is not among the reviewed sources). -/
structure Context where
  kind : CtxKind
  route : Int
  event : Nat
  nid : String
  gid : String
  cid : Int
  uid : Int
  seq : Int
  version : Nat
  cancelSignaled : Bool
  deferRan : Bool
  recycled : Bool
deriving DecidableEq, Repr

/-- Modelled from the spec: `incrVersion()` bumps the generation counter on
each delivery attempt. -/
def Context.incrVersion (c : Context) : Context :=
  { c with version := c.version + 1 }

/-- Modelled from the spec: `loadVersion()` reads the current generation. -/
def Context.loadVersion (c : Context) : Nat :=
  c.version

/-- Modelled from the spec: `Cancel()` marks a previously enqueued,
not-yet-processed delivery of this envelope as superseded; modelled as raising
the cancel signal on the envelope. -/
def Context.Cancel (c : Context) : Context :=
  { c with cancelSignaled := true }

/-- Modelled from the spec: `compareVersionExecDefer(v)` runs the attached
finalizer only if `v` still equals the current version, else discards it. -/
def Context.compareVersionExecDefer (c : Context) (v : Nat) : Context :=
  if c.version = v then { c with deferRan := true } else c

/-- Modelled from the spec: `compareVersionRecycle(v)` returns the envelope to
its pool only if `v` still equals the current version, else leaves it — another
delivery owns it. -/
def Context.compareVersionRecycle (c : Context) (v : Nat) : Context :=
  if c.version = v then { c with recycled := true } else c

/-- Actor state constant `unstart` (`actor.go` line 13). -/
def unstart : Nat := 0

/-- Actor state constant `started` (`actor.go` line 14). -/
def started : Nat := 1

/-- Actor state constant `destroyed` (`actor.go` line 15). -/
def destroyed : Nat := 2

/-- A closure sent on the control queue `fnChan`: either one of the two
registration closures built in `AddRouteHandler` / `AddEventHandler`
(`actor.go` lines 77-80 and 95-97) or an opaque user callback from `Invoke`. -/
inductive Cmd
  | addRoute (route : Int) (handler : Nat)
  | addEvent (event : Nat) (handler : Nat)
  | invoke (fn : Nat)
deriving DecidableEq, Repr

/-- The Actor of `actor.go`: state word, route and event tables, mailbox and
control queue (channel contents as lists), the bind set (`binds` sync.Map key
set), plus explicit effect counters for the processor cleanup and the channel
closes. Handlers are identified by opaque ids (`Nat`); `kind` caches
`processor.Kind()`. -/
structure Actor where
  kind : String
  state : Nat
  routes : List (Int × Nat)
  events : List (Nat × Nat)
  mailbox : List Context
  fnChan : List Cmd
  binds : List Int
  processorDestroyCount : Nat
  mailboxClosed : Bool
  fnChanClosed : Bool
deriving DecidableEq, Repr

/-- The Scheduler state the reviewed code touches: the global route table
`scheduler.routes` (route id to owning kind) and the bind-relation table
(modelled as the set of `(uid, kind)` pairs currently bound). -/
structure Scheduler where
  routes : List (Int × String)
  relations : List (Int × String)
deriving DecidableEq, Repr

/-- `Actor.Invoke` (`actor.go` lines 57-66): no-op unless started, else the
callback is sent on the control queue. -/
def Actor.Invoke (a : Actor) (fn : Nat) : Actor :=
  if a.state ≠ started then a
  else { a with fnChan := a.fnChan ++ [Cmd.invoke fn] }

/-- `Actor.AddRouteHandler` (`actor.go` lines 69-84): pre-start mutates the
route table directly; started sends a registration closure on the control
queue; otherwise (destroyed) ignored. -/
def Actor.AddRouteHandler (a : Actor) (route : Int) (handler : Nat) : Actor :=
  if a.state = unstart then { a with routes := mapStore a.routes route handler }
  else if a.state = started then { a with fnChan := a.fnChan ++ [Cmd.addRoute route handler] }
  else a

/-- `Actor.AddEventHandler` (`actor.go` lines 87-101): pre-start mutates the
event table directly; started sends a registration closure on the control
queue; otherwise (destroyed) ignored. -/
def Actor.AddEventHandler (a : Actor) (event : Nat) (handler : Nat) : Actor :=
  if a.state = unstart then { a with events := mapStore a.events event handler }
  else if a.state = started then { a with fnChan := a.fnChan ++ [Cmd.addEvent event handler] }
  else a

/-- Executing one control-queue closure on the worker: the route-registration
closure updates the route table and publishes the route-to-kind mapping in the
global Scheduler route table (`actor.go` lines 77-80); the event-registration
closure updates the event table (lines 95-97); a user callback is opaque to
the model. -/
def execCmd (a : Actor) (s : Scheduler) (cmd : Cmd) : Actor × Scheduler :=
  match cmd with
  | Cmd.addRoute route handler =>
      ({ a with routes := mapStore a.routes route handler },
       { s with routes := mapStore s.routes route a.kind })
  | Cmd.addEvent event handler =>
      ({ a with events := mapStore a.events event handler }, s)
  | Cmd.invoke _ => (a, s)

/-- The three steps `Actor.Next` performs on the started path, in source
order (`actor.go` lines 112-116). -/
inductive NextEv
  | incrVersion
  | cancel
  | enqueue
deriving DecidableEq, Repr

/-- `Actor.Next` (`actor.go` lines 104-117): no-op unless started; else bumps
the version of the context, raises its cancel signal, and sends it on the
mailbox — in that order. Returns the updated actor, the context as delivered,
and the trace of steps taken. -/
def Actor.Next (a : Actor) (ctx : Context) : Actor × Context × List NextEv :=
  if a.state ≠ started then (a, ctx, [])
  else
    let c1 := ctx.incrVersion
    let c2 := c1.Cancel
    ({ a with mailbox := a.mailbox ++ [c2] }, c2,
     [NextEv.incrVersion, NextEv.cancel, NextEv.enqueue])

/-- The observable steps of `Actor.Destroy`, in source order. -/
inductive DestroyEv
  | processorDestroy
  | unbind (uid : Int)
  | closeMailbox
  | closeFnChan
deriving DecidableEq, Repr

/-- Modelled from the spec: `Scheduler.batchUnbindActor` lets a destroying
actor remove itself from every bound user entry of the relation table in one
batched critical section (`scheduler.go` is not among the reviewed
sources). The closure passed in `actor.go` lines 139-144 deletes the
`(uid, a.Kind())` entry for every uid in the bind set. -/
def batchUnbindActor (s : Scheduler) (a : Actor) : Scheduler × List DestroyEv :=
  ({ s with relations :=
      s.relations.filter (fun p => !(a.binds.contains p.1 && p.2 == a.kind)) },
   a.binds.map DestroyEv.unbind)

/-- `Actor.Destroy` (`actor.go` lines 132-152): gated by the compare-and-swap
from `started` to `destroyed`; on success runs the processor cleanup, removes
every bind entry of this actor from the Scheduler relation table, then closes
the mailbox and the control queue. Returns the actor, the scheduler, and the
trace of effects in execution order. -/
def Actor.Destroy (a : Actor) (s : Scheduler) : Actor × Scheduler × List DestroyEv :=
  if a.state ≠ started then (a, s, [])
  else
    let a1 := { a with state := destroyed,
                       processorDestroyCount := a.processorDestroyCount + 1 }
    let u := batchUnbindActor s a1
    let a2 := { a1 with mailboxClosed := true, fnChanClosed := true }
    (a2, u.1, DestroyEv.processorDestroy :: u.2 ++ [DestroyEv.closeMailbox, DestroyEv.closeFnChan])

/-- `Actor.bindUser` (`actor.go` lines 155-157): `binds.Store(uid, struct)`,
i.e. key-set insertion. -/
def Actor.bindUser (a : Actor) (uid : Int) : Actor :=
  if a.binds.contains uid then a else { a with binds := a.binds ++ [uid] }

/-- `Actor.unbindUser` (`actor.go` lines 160-163): `binds.LoadAndDelete(uid)`,
returning whether the uid was present and removing it. -/
def Actor.unbindUser (a : Actor) (uid : Int) : Actor × Bool :=
  if a.binds.contains uid then
    ({ a with binds := a.binds.filter (fun u => u != uid) }, true)
  else (a, false)

/-- Result of running one handler: the context as left by the handler and
whether the handler faulted (panicked); `xcall.Call` recovers such a fault, so
it never propagates. -/
structure HandlerResult where
  ctx : Context
  fault : Bool
deriving DecidableEq, Repr

/-- One iteration of the mailbox arm of the worker loop in `Actor.dispatch`
(`actor.go` lines 175-189), parameterised by the handler semantics `hsem`
(handler id and context to result). Captures the version before the handler
runs; looks up the event table for an Event context and the route table for a
Message context; a missing handler is skipped; the handler runs inside
`xcall.Call`, which recovers a fault; then the version-gated finalize and the
version-gated recycle are applied with the captured version. Returns the
resulting context, whether a handler was invoked, and whether it faulted. -/
def Actor.dispatchStep (a : Actor) (hsem : Nat → Context → HandlerResult)
    (ctx : Context) : Context × Bool × Bool :=
  let version := ctx.loadVersion
  let run : Context × Bool × Bool :=
    if ctx.kind = CtxKind.Event then
      match mapLoad a.events ctx.event with
      | some h => ((hsem h ctx).ctx, true, (hsem h ctx).fault)
      | none => (ctx, false, false)
    else
      match mapLoad a.routes ctx.route with
      | some h => ((hsem h ctx).ctx, true, (hsem h ctx).fault)
      | none => (ctx, false, false)
  ((run.1.compareVersionExecDefer version).compareVersionRecycle version,
   run.2.1, run.2.2)

/-- The worker loop of `Actor.dispatch` over the pending mailbox contents: it
services every queued context in order; a fault inside a handler is recovered
by `xcall.Call` and never terminates the loop. -/
def Actor.dispatchLoop (a : Actor) (hsem : Nat → Context → HandlerResult) :
    List (Context × Bool × Bool) :=
  a.mailbox.map (a.dispatchStep hsem)

/-- The originating request a reply is resolved from (`Request` in the node
package): gateway id, origin node id, connection id, user id, and the message
header (sequence and route). -/
structure Request where
  gid : String
  nid : String
  cid : Int
  uid : Int
  seq : Int
  route : Int
deriving DecidableEq, Repr

/-- Opaque tag standing for the external constant `session.Conn`. -/
def sessionConn : Nat := 0

/-- A call the Proxy makes into an external collaborator: `link.Push`,
`link.Deliver` (network Link layer), or `router.deliver` (local route
resolution through the node router, arguments in the order of the call at
`proxy.go` line 167). -/
inductive ProxyCall
  | push (gid : String) (kind : Nat) (target : Int) (seq : Int) (route : Int)
  | deliver (nid : String) (uid : Int) (seq : Int) (route : Int)
  | routerDeliver (gid : String) (nid : String) (cid : Int) (uid : Int)
      (seq : Int) (route : Int)
deriving DecidableEq, Repr

/-- Whether a `ProxyCall` is a call into the network Link layer
(`link.Push` or `link.Deliver`). -/
def ProxyCall.isLink : ProxyCall → Bool
  | ProxyCall.push _ _ _ _ _ => true
  | ProxyCall.deliver _ _ _ _ => true
  | ProxyCall.routerDeliver _ _ _ _ _ _ => false

/-- The Proxy as far as the verified code observes it: the local node id
(`p.GetNodeID()`) and the error the external Link returns for a forwarded
call (the Link is an external collaborator, so its result is a parameter). -/
structure Proxy where
  nodeId : String
  linkErr : Option Unit
deriving DecidableEq, Repr

/-- `Proxy.GetNodeID` (`proxy.go` lines 29-31). -/
def Proxy.GetNodeID (p : Proxy) : String :=
  p.nodeId

/-- `cluster.DeliverArgs`: target node id, target user id, and the message
header. -/
structure DeliverArgs where
  nid : String
  uid : Int
  seq : Int
  route : Int
deriving DecidableEq, Repr

/-- `Proxy.Deliver` (`proxy.go` lines 159-171): a target node id different
from the local one forwards through `link.Deliver` and returns its error; a
target equal to the local node calls `router.deliver` for local route
resolution and returns nil. The parameter `routerFailed` stands for whether
the local route resolution fails internally; the code discards that outcome,
so the parameter is unused. Returns the list of external calls made and the
returned error. -/
def Proxy.Deliver (p : Proxy) (_routerFailed : Bool) (args : DeliverArgs) :
    List ProxyCall × Option Unit :=
  if args.nid ≠ p.GetNodeID then
    ([ProxyCall.deliver args.nid args.uid args.seq args.route], p.linkErr)
  else
    ([ProxyCall.routerDeliver "" args.nid 0 args.uid args.seq args.route], none)

/-- `Proxy.Response` (`proxy.go` lines 174-200): a non-empty gateway id on the
request pushes the reply to that connection on that gateway; else a non-empty
origin node id delivers the reply to that node and user; else no call is made
and nil is returned. Returns the call made, if any, and the returned error. -/
def Proxy.Response (p : Proxy) (req : Request) : Option ProxyCall × Option Unit :=
  if req.gid ≠ "" then
    (some (ProxyCall.push req.gid sessionConn req.cid req.seq req.route), p.linkErr)
  else if req.nid ≠ "" then
    (some (ProxyCall.deliver req.nid req.uid req.seq req.route), p.linkErr)
  else (none, none)

/-- Folding a sequence of `AddRouteHandler` calls (route, handler pairs in
call order) over an actor. -/
def applyAddRoutes (a : Actor) (calls : List (Int × Nat)) : Actor :=
  calls.foldl (fun a1 p => a1.AddRouteHandler p.1 p.2) a

/-- The last-write-wins reading of a call sequence: the value of the last
pair whose key matches, if any. -/
def lwwLookup {α β : Type} [DecidableEq α] (calls : List (α × β)) (k : α) :
    Option β :=
  match calls with
  | [] => none
  | (k1, v1) :: rest =>
      match lwwLookup rest k with
      | some v => some v
      | none => if k1 = k then some v1 else none

/-! Helper lemmas. -/

theorem mapLoad_mapStore {α β : Type} [DecidableEq α] (m : List (α × β))
    (k q : α) (v : β) :
    mapLoad (mapStore m k v) q = if k = q then some v else mapLoad m q := by
  induction m with
  | nil => simp [mapStore, mapLoad]
  | cons hd tl ih =>
      obtain ⟨k1, v1⟩ := hd
      by_cases hk : k1 = k
      · subst hk
        by_cases hq : k1 = q <;> simp [mapStore, mapLoad, hq]
      · by_cases hq : k1 = q
        · subst hq
          have hk2 : ¬ k = k1 := fun h => hk h.symm
          simp [mapStore, mapLoad, hk, hk2]
        · simp [mapStore, mapLoad, hk, hq, ih]

theorem applyAddRoutes_unstart (calls : List (Int × Nat)) (a : Actor)
    (h : a.state = unstart) (q : Int) :
    (applyAddRoutes a calls).state = unstart ∧
    mapLoad (applyAddRoutes a calls).routes q =
      (match lwwLookup calls q with
       | some v => some v
       | none => mapLoad a.routes q) := by
  induction calls generalizing a with
  | nil => simpa [applyAddRoutes, lwwLookup] using h
  | cons hd tl ih =>
      obtain ⟨r, v⟩ := hd
      have hstep : a.AddRouteHandler r v =
          { a with routes := mapStore a.routes r v } := by
        simp [Actor.AddRouteHandler, h]
      have happ : applyAddRoutes a ((r, v) :: tl) =
          applyAddRoutes { a with routes := mapStore a.routes r v } tl := by
        simp [applyAddRoutes, List.foldl_cons, hstep]
      rw [happ]
      have ih1 := ih { a with routes := mapStore a.routes r v } h
      refine ⟨ih1.1, ?_⟩
      rw [ih1.2]
      cases hlww : lwwLookup tl q with
      | some w => simp [lwwLookup, hlww]
      | none =>
          simp only [lwwLookup, hlww, mapLoad_mapStore]
          by_cases hrq : r = q <;> simp [hrq]

theorem contains_filter_ne_self (l : List Int) (x : Int) :
    (l.filter (fun u => u != x)).contains x = false := by
  simp [List.contains, List.elem_eq_mem, List.mem_filter]

/-! Concrete instances used by the witnesses and the counterexample. -/

/-- A fresh, not-yet-started actor of kind room, as allocated by spawn. -/
def actorU : Actor :=
  { kind := "room", state := unstart, routes := [], events := [], mailbox := [],
    fnChan := [], binds := [], processorDestroyCount := 0,
    mailboxClosed := false, fnChanClosed := false }

/-- A started actor with route 10 and event 3 registered and user 42 bound. -/
def actorS : Actor :=
  { kind := "room", state := started, routes := [(10, 5)], events := [(3, 6)],
    mailbox := [], fnChan := [], binds := [42], processorDestroyCount := 0,
    mailboxClosed := false, fnChanClosed := false }

/-- A destroyed actor. -/
def actorD : Actor :=
  { kind := "room", state := destroyed, routes := [(10, 5)], events := [],
    mailbox := [], fnChan := [], binds := [], processorDestroyCount := 1,
    mailboxClosed := true, fnChanClosed := true }

/-- A scheduler with user 42 bound to the room actor and to a lobby actor. -/
def schedEx : Scheduler :=
  { routes := [(10, "room")], relations := [(42, "room"), (42, "lobby")] }

/-- A concrete Message context for route 10. -/
def ctxMsg : Context :=
  { kind := CtxKind.Message, route := 10, event := 0, nid := "n1", gid := "",
    cid := 0, uid := 42, seq := 1, version := 0, cancelSignaled := false,
    deferRan := false, recycled := false }

/-- A concrete Event context for event 3. -/
def ctxEvt : Context :=
  { kind := CtxKind.Event, route := 0, event := 3, nid := "n1", gid := "",
    cid := 0, uid := 42, seq := 1, version := 0, cancelSignaled := false,
    deferRan := false, recycled := false }

/-- A handler semantics for the witnesses: handler 5 bumps the version of the
context (a redelivery during the handler), handler 6 faults, any other handler
leaves the context unchanged. -/
def hsemEx (h : Nat) (c : Context) : HandlerResult :=
  if h = 5 then { ctx := c.incrVersion, fault := false }
  else if h = 6 then { ctx := c, fault := true }
  else { ctx := c, fault := false }

/-! Claim theorems. -/

/-- C5: Response resolves the reply destination purely from the attribution of
the request: a non-empty gateway id pushes toward that gateway connection; an
empty gateway id with a non-empty origin node id delivers toward that node and
user pair; both empty makes no call and returns nil. -/
theorem response_resolves_from_request_attribution (p : Proxy) (req : Request) :
    (req.gid ≠ "" →
       p.Response req =
         (some (ProxyCall.push req.gid sessionConn req.cid req.seq req.route),
          p.linkErr)) ∧
    (req.gid = "" → req.nid ≠ "" →
       p.Response req =
         (some (ProxyCall.deliver req.nid req.uid req.seq req.route),
          p.linkErr)) ∧
    (req.gid = "" → req.nid = "" → p.Response req = (none, none)) := by
  refine ⟨fun hg => ?_, fun hg hn => ?_, fun hg hn => ?_⟩ <;>
    simp [Proxy.Response, hg]
  · simp [hn]
  · simp [hn]

/-- C5 witness: the three branches at concrete requests. -/
theorem response_resolves_from_request_attribution_witness :
    (Proxy.mk "n1" none).Response (Request.mk "g1" "" 7 0 1 10) =
      (some (ProxyCall.push "g1" sessionConn 7 1 10), none) ∧
    (Proxy.mk "n1" none).Response (Request.mk "" "n2" 0 42 1 10) =
      (some (ProxyCall.deliver "n2" 42 1 10), none) ∧
    (Proxy.mk "n1" none).Response (Request.mk "" "" 0 0 1 10) = (none, none) :=
  ⟨(response_resolves_from_request_attribution (Proxy.mk "n1" none)
      (Request.mk "g1" "" 7 0 1 10)).1 (by decide),
   (response_resolves_from_request_attribution (Proxy.mk "n1" none)
      (Request.mk "" "n2" 0 42 1 10)).2.1 rfl (by decide),
   (response_resolves_from_request_attribution (Proxy.mk "n1" none)
      (Request.mk "" "" 0 0 1 10)).2.2 rfl rfl⟩

/-- C6: Deliver with a target node id equal to the local node performs local
route resolution through the router and never calls the network Link; with a
different target it makes exactly one Link call, the Deliver call with the
given arguments. -/
theorem deliver_local_vs_remote_link_calls (p : Proxy) (rf : Bool)
    (args : DeliverArgs) :
    (args.nid = p.GetNodeID →
       (p.Deliver rf args).1 =
         [ProxyCall.routerDeliver "" args.nid 0 args.uid args.seq args.route] ∧
       ((p.Deliver rf args).1.countP ProxyCall.isLink) = 0) ∧
    (args.nid ≠ p.GetNodeID →
       (p.Deliver rf args).1 =
         [ProxyCall.deliver args.nid args.uid args.seq args.route] ∧
       ((p.Deliver rf args).1.countP ProxyCall.isLink) = 1) := by
  refine ⟨fun h => ?_, fun h => ?_⟩ <;>
    simp [Proxy.Deliver, h, List.countP, List.countP.go, ProxyCall.isLink]

/-- C6 witness: one local and one remote delivery at concrete arguments. -/
theorem deliver_local_vs_remote_link_calls_witness :
    ((Proxy.mk "n1" none).Deliver true (DeliverArgs.mk "n1" 42 1 10)).1 =
      [ProxyCall.routerDeliver "" "n1" 0 42 1 10] ∧
    ((Proxy.mk "n1" none).Deliver true (DeliverArgs.mk "n2" 42 1 10)).1 =
      [ProxyCall.deliver "n2" 42 1 10] :=
  ⟨((deliver_local_vs_remote_link_calls (Proxy.mk "n1" none) true
      (DeliverArgs.mk "n1" 42 1 10)).1 rfl).1,
   ((deliver_local_vs_remote_link_calls (Proxy.mk "n1" none) true
      (DeliverArgs.mk "n2" 42 1 10)).2 (by decide)).1⟩

/-- C10: Deliver with a target node id equal to the local node returns nil
unconditionally — whatever the outcome of the local route resolution and
whatever error the Link would have returned, no error is surfaced. -/
theorem deliver_local_returns_nil (p : Proxy) (rf : Bool) (args : DeliverArgs)
    (h : args.nid = p.GetNodeID) :
    (p.Deliver rf args).2 = none := by
  simp [Proxy.Deliver, h]

/-- C10 witness: a local delivery with a failing router and a Link that would
return an error still returns nil. -/
theorem deliver_local_returns_nil_witness :
    ((Proxy.mk "n1" (some ())).Deliver true (DeliverArgs.mk "n1" 42 1 10)).2 =
      none :=
  deliver_local_returns_nil (Proxy.mk "n1" (some ())) true
    (DeliverArgs.mk "n1" 42 1 10) rfl

/-- C7: on a started actor, Next bumps the version of the context, raises its
cancel signal (superseding the predecessor delivery), and enqueues it on the
mailbox — in that order, as witnessed by the step trace; the delivered context
is exactly the bumped-then-cancelled one, appended at the tail of the
mailbox. -/
theorem next_bumps_cancels_enqueues_in_order (a : Actor) (c : Context)
    (h : a.state = started) :
    (a.Next c).2.2 = [NextEv.incrVersion, NextEv.cancel, NextEv.enqueue] ∧
    (a.Next c).2.1 = (c.incrVersion).Cancel ∧
    (a.Next c).2.1.version = c.version + 1 ∧
    (a.Next c).2.1.cancelSignaled = true ∧
    (a.Next c).1 = { a with mailbox := a.mailbox ++ [(c.incrVersion).Cancel] } := by
  simp [Actor.Next, h, Context.incrVersion, Context.Cancel]

/-- C7 witness: a concrete delivery on a started actor. -/
theorem next_bumps_cancels_enqueues_in_order_witness :
    (actorS.Next ctxMsg).2.2 = [NextEv.incrVersion, NextEv.cancel, NextEv.enqueue] ∧
    (actorS.Next ctxMsg).2.1.version = ctxMsg.version + 1 ∧
    (actorS.Next ctxMsg).2.1.cancelSignaled = true :=
  ⟨(next_bumps_cancels_enqueues_in_order actorS ctxMsg rfl).1,
   (next_bumps_cancels_enqueues_in_order actorS ctxMsg rfl).2.2.1,
   (next_bumps_cancels_enqueues_in_order actorS ctxMsg rfl).2.2.2.1⟩

/-- C1: across two delivery attempts of the same envelope to the same actor —
the second accepted before the first dequeued delivery has finished — the
delivered version strictly increases; and the post-steps of the first
delivery, gated on the version it captured at dispatch time, are skipped once
the second delivery is accepted: the finalizer does not run and the envelope
is not recycled, because the captured version no longer equals the current
one. -/
theorem next_version_monotone_and_stale_poststeps_skipped (a : Actor)
    (c : Context) (h : a.state = started) (hd : c.deferRan = false)
    (hr : c.recycled = false) :
    ((a.Next c).2.1).version < (((a.Next c).1).Next ((a.Next c).2.1)).2.1.version ∧
    ((((a.Next c).1).Next ((a.Next c).2.1)).2.1.compareVersionExecDefer
        ((a.Next c).2.1.loadVersion)).deferRan = false ∧
    (((((a.Next c).1).Next ((a.Next c).2.1)).2.1.compareVersionExecDefer
        ((a.Next c).2.1.loadVersion)).compareVersionRecycle
        ((a.Next c).2.1.loadVersion)).recycled = false := by
  refine ⟨?_, ?_, ?_⟩ <;>
    simp [Actor.Next, h, Context.incrVersion, Context.Cancel,
          Context.loadVersion, Context.compareVersionExecDefer,
          Context.compareVersionRecycle, hd, hr]

/-- C1 witness: the two delivery attempts at a concrete actor and context. -/
theorem next_version_monotone_and_stale_poststeps_skipped_witness :
    ((actorS.Next ctxMsg).2.1).version <
      (((actorS.Next ctxMsg).1).Next ((actorS.Next ctxMsg).2.1)).2.1.version ∧
    ((((actorS.Next ctxMsg).1).Next ((actorS.Next ctxMsg).2.1)).2.1.compareVersionExecDefer
        ((actorS.Next ctxMsg).2.1.loadVersion)).deferRan = false ∧
    (((((actorS.Next ctxMsg).1).Next ((actorS.Next ctxMsg).2.1)).2.1.compareVersionExecDefer
        ((actorS.Next ctxMsg).2.1.loadVersion)).compareVersionRecycle
        ((actorS.Next ctxMsg).2.1.loadVersion)).recycled = false :=
  next_version_monotone_and_stale_poststeps_skipped actorS ctxMsg rfl rfl rfl

/-- C2: Destroy on a started actor transitions it to destroyed via the
compare-and-swap, runs the processor cleanup once, removes every bind entry of
the actor from the Scheduler relation table, and only then closes the mailbox
and the control queue, as the effect trace shows; a second Destroy is a
no-op, so any number of further calls behaves identically to one call. -/
theorem destroy_idempotent_unbinds_before_close (a : Actor) (s : Scheduler)
    (h : a.state = started) :
    (a.Destroy s).1.state = destroyed ∧
    (a.Destroy s).1.processorDestroyCount = a.processorDestroyCount + 1 ∧
    (a.Destroy s).2.2 =
      DestroyEv.processorDestroy :: a.binds.map DestroyEv.unbind ++
        [DestroyEv.closeMailbox, DestroyEv.closeFnChan] ∧
    ((a.Destroy s).1).Destroy ((a.Destroy s).2.1) =
      ((a.Destroy s).1, (a.Destroy s).2.1, []) ∧
    (∀ uid, a.binds.contains uid = true →
       ¬ ((uid, a.kind) ∈ (a.Destroy s).2.1.relations)) := by
  refine ⟨?_, ?_, ?_, ?_, ?_⟩
  · simp [Actor.Destroy, h]
  · simp [Actor.Destroy, h]
  · simp [Actor.Destroy, h, batchUnbindActor]
  · simp [Actor.Destroy, h, destroyed, started]
  · intro uid huid
    simp only [Actor.Destroy, h, ne_eq, not_true_eq_false, if_false,
               batchUnbindActor]
    intro hmem
    have hf := List.of_mem_filter hmem
    simp [huid] at hf
    exact hf (List.mem_of_elem_eq_true huid)

/-- C2 witness: destroying a started actor bound to user 42; the trace is the
cleanup, the unbind of 42, then the two channel closes; the relation entry of
user 42 for kind room is gone, and a second Destroy is a no-op. -/
theorem destroy_idempotent_unbinds_before_close_witness :
    (actorS.Destroy schedEx).2.2 =
      [DestroyEv.processorDestroy, DestroyEv.unbind 42,
       DestroyEv.closeMailbox, DestroyEv.closeFnChan] ∧
    ¬ ((42, "room") ∈ (actorS.Destroy schedEx).2.1.relations) ∧
    ((actorS.Destroy schedEx).1).Destroy ((actorS.Destroy schedEx).2.1) =
      ((actorS.Destroy schedEx).1, (actorS.Destroy schedEx).2.1, []) :=
  ⟨(destroy_idempotent_unbinds_before_close actorS schedEx rfl).2.2.1,
   (destroy_idempotent_unbinds_before_close actorS schedEx rfl).2.2.2.2 42 rfl,
   (destroy_idempotent_unbinds_before_close actorS schedEx rfl).2.2.2.1⟩

/-- C3 counterexample: the claim says every one of Next, Invoke,
AddRouteHandler and AddEventHandler is a silent no-op on every actor whose
state is not started, including a not-yet-started one; but on an unstart
actor, AddRouteHandler mutates the route table directly (actor.go line 75), so
it is not a no-op. -/
theorem addRouteHandler_prestart_not_noop :
    actorU.AddRouteHandler 10 5 ≠ actorU := by
  decide

/-- C3 amended: on a destroyed actor, each of Next, Invoke, AddRouteHandler
and AddEventHandler is a silent no-op; on an unstart actor, Next and Invoke
are silent no-ops, while AddRouteHandler and AddEventHandler mutate the local
table directly and enqueue nothing — neither the mailbox nor the control queue
changes, so nothing reaches the worker. -/
theorem lifecycle_nonstarted_behavior (a : Actor) (c : Context) (fn : Nat)
    (r : Int) (rh : Nat) (e : Nat) (eh : Nat) :
    (a.state = destroyed →
       a.Next c = (a, c, []) ∧ a.Invoke fn = a ∧
       a.AddRouteHandler r rh = a ∧ a.AddEventHandler e eh = a) ∧
    (a.state = unstart →
       a.Next c = (a, c, []) ∧ a.Invoke fn = a ∧
       (a.AddRouteHandler r rh).fnChan = a.fnChan ∧
       (a.AddRouteHandler r rh).mailbox = a.mailbox ∧
       (a.AddEventHandler e eh).fnChan = a.fnChan ∧
       (a.AddEventHandler e eh).mailbox = a.mailbox) := by
  constructor <;> intro h <;>
    simp [Actor.Next, Actor.Invoke, Actor.AddRouteHandler, Actor.AddEventHandler,
          h, unstart, started, destroyed]

/-- C3 witness: the no-ops on a destroyed actor and the enqueue-free direct
mutation on an unstart actor, at concrete inputs. -/
theorem lifecycle_nonstarted_behavior_witness :
    actorD.Invoke 0 = actorD ∧
    actorD.AddRouteHandler 11 7 = actorD ∧
    actorU.Next ctxMsg = (actorU, ctxMsg, []) ∧
    (actorU.AddRouteHandler 11 7).fnChan = actorU.fnChan :=
  ⟨((lifecycle_nonstarted_behavior actorD ctxMsg 0 11 7 3 8).1 rfl).2.1,
   ((lifecycle_nonstarted_behavior actorD ctxMsg 0 11 7 3 8).1 rfl).2.2.1,
   ((lifecycle_nonstarted_behavior actorU ctxMsg 0 11 7 3 8).2 rfl).1,
   ((lifecycle_nonstarted_behavior actorU ctxMsg 0 11 7 3 8).2 rfl).2.2.1⟩

/-- The table lookup dispatch performs for a context: the event table for an
Event context, the route table for a Message context. -/
def handlerLookup (a : Actor) (c : Context) : Option Nat :=
  if c.kind = CtxKind.Event then mapLoad a.events c.event
  else mapLoad a.routes c.route

/-- A Message context whose route has no registered handler on `actorS`. -/
def ctxMiss : Context :=
  { ctxMsg with route := 99 }

/-- C4: dispatch resolves a Message context in the route table and an Event
context in the event table; a missing handler is silently skipped and the
context still flows through the two gates; a handler fault is recovered and
only reported, never propagated, and the loop services every queued context;
the finalize gate runs before the recycle gate, both against the version
captured before the handler ran — so a handler that superseded the envelope
(its version changed) leaves both the finalizer and the recycling unrun. -/
theorem dispatch_lookup_fault_containment_and_gating (a : Actor)
    (hsem : Nat → Context → HandlerResult) (c : Context) :
    (handlerLookup a c = none →
       a.dispatchStep hsem c =
         ((c.compareVersionExecDefer c.version).compareVersionRecycle c.version,
          false, false)) ∧
    (∀ hid, handlerLookup a c = some hid →
       a.dispatchStep hsem c =
         (((hsem hid c).ctx.compareVersionExecDefer c.version).compareVersionRecycle
            c.version, true, (hsem hid c).fault)) ∧
    (a.dispatchLoop hsem).length = a.mailbox.length ∧
    (∀ c1 rest, a.mailbox = c1 :: rest →
       a.dispatchLoop hsem =
         a.dispatchStep hsem c1 ::
           Actor.dispatchLoop { a with mailbox := rest } hsem) ∧
    (∀ hid, handlerLookup a c = some hid →
       (hsem hid c).ctx.version ≠ c.version →
       (a.dispatchStep hsem c).1.deferRan = (hsem hid c).ctx.deferRan ∧
       (a.dispatchStep hsem c).1.recycled = (hsem hid c).ctx.recycled) := by
  have hstep : ∀ hid, handlerLookup a c = some hid →
      a.dispatchStep hsem c =
        (((hsem hid c).ctx.compareVersionExecDefer c.version).compareVersionRecycle
           c.version, true, (hsem hid c).fault) := by
    intro hid hl
    by_cases hk : c.kind = CtxKind.Event <;>
      simp only [handlerLookup, hk, if_true, if_false] at hl <;>
      simp [Actor.dispatchStep, hk, hl, Context.loadVersion]
  refine ⟨?_, hstep, ?_, ?_, ?_⟩
  · intro hl
    by_cases hk : c.kind = CtxKind.Event <;>
      simp only [handlerLookup, hk, if_true, if_false] at hl <;>
      simp [Actor.dispatchStep, hk, hl, Context.loadVersion]
  · simp [Actor.dispatchLoop]
  · intro c1 rest hm
    simp only [Actor.dispatchLoop, hm, List.map_cons]
    rfl
  · intro hid hl hv
    rw [hstep hid hl]
    simp [Context.compareVersionExecDefer, Context.compareVersionRecycle, hv]

/-- C4 witness: on a concrete started actor, a context with an unregistered
route flows through the gates untouched by any handler; a registered handler
that bumps the envelope version leaves the finalize and recycle gates unrun;
the faulting event handler is recovered, only its fault flag is reported; and
the loop length is preserved. -/
theorem dispatch_lookup_fault_containment_and_gating_witness :
    actorS.dispatchStep hsemEx ctxMiss =
      ((ctxMiss.compareVersionExecDefer ctxMiss.version).compareVersionRecycle
         ctxMiss.version, false, false) ∧
    (actorS.dispatchStep hsemEx ctxMsg).1.deferRan = (hsemEx 5 ctxMsg).ctx.deferRan ∧
    (actorS.dispatchStep hsemEx ctxMsg).1.recycled = (hsemEx 5 ctxMsg).ctx.recycled ∧
    actorS.dispatchStep hsemEx ctxEvt =
      (((hsemEx 6 ctxEvt).ctx.compareVersionExecDefer ctxEvt.version).compareVersionRecycle
         ctxEvt.version, true, (hsemEx 6 ctxEvt).fault) :=
  ⟨(dispatch_lookup_fault_containment_and_gating actorS hsemEx ctxMiss).1 (by decide),
   ((dispatch_lookup_fault_containment_and_gating actorS hsemEx ctxMsg).2.2.2.2 5
      (by decide) (by decide)).1,
   ((dispatch_lookup_fault_containment_and_gating actorS hsemEx ctxMsg).2.2.2.2 5
      (by decide) (by decide)).2,
   (dispatch_lookup_fault_containment_and_gating actorS hsemEx ctxEvt).2.1 6
      (by decide)⟩

/-- C8: handler registration is state dependent — on an unstart actor the
table is mutated directly (so a pre-start call sequence yields the
last-write-wins table in call order) and nothing is enqueued; on a started
actor the mutation is marshaled as a closure on the control queue, and
executing the route closure on the worker updates the route table and
publishes the route-to-kind mapping in the global Scheduler route table,
while the event closure updates only the event table; on a destroyed actor
both registrations are no-ops. -/
theorem addHandler_state_dependent_behavior (a : Actor) (s : Scheduler)
    (r : Int) (rh : Nat) (e : Nat) (eh : Nat) :
    (a.state = unstart →
       a.AddRouteHandler r rh = { a with routes := mapStore a.routes r rh } ∧
       a.AddEventHandler e eh = { a with events := mapStore a.events e eh } ∧
       (a.routes = [] → ∀ calls : List (Int × Nat), ∀ q : Int,
          mapLoad (applyAddRoutes a calls).routes q = lwwLookup calls q)) ∧
    (a.state = started →
       a.AddRouteHandler r rh =
         { a with fnChan := a.fnChan ++ [Cmd.addRoute r rh] } ∧
       a.AddEventHandler e eh =
         { a with fnChan := a.fnChan ++ [Cmd.addEvent e eh] } ∧
       execCmd a s (Cmd.addRoute r rh) =
         ({ a with routes := mapStore a.routes r rh },
          { s with routes := mapStore s.routes r a.kind }) ∧
       execCmd a s (Cmd.addEvent e eh) =
         ({ a with events := mapStore a.events e eh }, s)) ∧
    (a.state = destroyed →
       a.AddRouteHandler r rh = a ∧ a.AddEventHandler e eh = a) := by
  refine ⟨fun h => ⟨?_, ?_, fun h0 calls q => ?_⟩, fun h => ?_, fun h => ?_⟩
  · simp [Actor.AddRouteHandler, h]
  · simp [Actor.AddEventHandler, h]
  · have := (applyAddRoutes_unstart calls a h q).2
    rw [this]
    cases hl : lwwLookup calls q <;> simp [h0, mapLoad]
  · simp [Actor.AddRouteHandler, Actor.AddEventHandler, execCmd, h, unstart,
          started]
  · simp [Actor.AddRouteHandler, Actor.AddEventHandler, h, unstart, started,
          destroyed]

/-- C8 witness: the three states at concrete inputs, including a pre-start
call sequence with an overwritten route resolving to the last write. -/
theorem addHandler_state_dependent_behavior_witness :
    actorU.AddRouteHandler 10 5 = { actorU with routes := mapStore actorU.routes 10 5 } ∧
    mapLoad (applyAddRoutes actorU [(10, 1), (10, 5), (11, 7)]).routes 10 =
      lwwLookup [(10, 1), (10, 5), (11, 7)] 10 ∧
    actorS.AddRouteHandler 11 7 =
      { actorS with fnChan := actorS.fnChan ++ [Cmd.addRoute 11 7] } ∧
    execCmd actorS schedEx (Cmd.addRoute 11 7) =
      ({ actorS with routes := mapStore actorS.routes 11 7 },
       { schedEx with routes := mapStore schedEx.routes 11 actorS.kind }) ∧
    actorD.AddRouteHandler 11 7 = actorD :=
  ⟨((addHandler_state_dependent_behavior actorU schedEx 10 5 3 6).1 rfl).1,
   ((addHandler_state_dependent_behavior actorU schedEx 10 5 3 6).1 rfl).2.2 rfl
      [(10, 1), (10, 5), (11, 7)] 10,
   ((addHandler_state_dependent_behavior actorS schedEx 11 7 3 6).2.1 rfl).1,
   ((addHandler_state_dependent_behavior actorS schedEx 11 7 3 6).2.1 rfl).2.2.1,
   ((addHandler_state_dependent_behavior actorD schedEx 11 7 3 6).2.2 rfl).1⟩

theorem unbindUser_absent (a : Actor) (uid : Int)
    (h : a.binds.contains uid = false) : a.unbindUser uid = (a, false) := by
  unfold Actor.unbindUser
  rw [if_neg (by simp only [h]; exact Bool.false_ne_true)]

/-- C9: unbindUser after bindUser for the same uid returns true and removes
the uid from the membership set; unbindUser on an absent uid returns false and
leaves the actor unchanged, so repeating it is idempotent. -/
theorem bindUser_unbindUser_membership (a : Actor) (uid : Int) :
    ((a.bindUser uid).unbindUser uid).2 = true ∧
    ((a.bindUser uid).unbindUser uid).1.binds.contains uid = false ∧
    (a.binds.contains uid = false → a.unbindUser uid = (a, false)) ∧
    ((a.bindUser uid).unbindUser uid).1.unbindUser uid =
      (((a.bindUser uid).unbindUser uid).1, false) := by
  have hb : (a.bindUser uid).binds.contains uid = true := by
    unfold Actor.bindUser
    by_cases h : a.binds.contains uid = true
    · rw [if_pos h]
      exact h
    · rw [if_neg h]
      simp [List.contains, List.elem_eq_mem, List.mem_append]
  have hu : (a.bindUser uid).unbindUser uid =
      ({ a.bindUser uid with
          binds := (a.bindUser uid).binds.filter (fun u => u != uid) }, true) := by
    unfold Actor.unbindUser
    rw [if_pos hb]
  have hc : ((a.bindUser uid).unbindUser uid).1.binds.contains uid = false := by
    rw [hu]
    exact contains_filter_ne_self (a.bindUser uid).binds uid
  exact ⟨by rw [hu], hc, fun h => unbindUser_absent a uid h,
         unbindUser_absent _ uid hc⟩

/-- C9 witness: bind-then-unbind of user 42 returns true; unbinding the
never-bound user 7 returns false and changes nothing. -/
theorem bindUser_unbindUser_membership_witness :
    ((actorS.bindUser 42).unbindUser 42).2 = true ∧
    actorS.unbindUser 7 = (actorS, false) :=
  ⟨(bindUser_unbindUser_membership actorS 42).1,
   (bindUser_unbindUser_membership actorS 7).2.2.1 rfl⟩
